import Mathlib

/-!
Verification of the device-binding component of `cc-proxy`
(`src/internal/device/binding.go`, `src/internal/device/handler.go`).

Shallow embedding conventions:
* `time.Time` and `time.Duration` are modelled as `Int` (nanoseconds since an
  arbitrary origin); the Go zero `time.Time{}` is `0`.
* The Go map `map[string]DeviceBinding` is modelled as an association list with
  unique keys; a `nil` map is `Option.none`, a non-nil (possibly empty) map is
  `Option.some`.
* The `Store` wrapper used by the middleware and the admin handler is not part
  of the provided sources; per the spec (§4.1) it delegates each operation to
  the in-memory `DeviceBindings` collection and may additionally report a
  persistence error, which the request hot path logs and swallows (fail-open).
  Those spec-modelled wrappers carry an explicit error flag.
-/

namespace CCProxy.Device

/-- Drops leading whitespace characters from a character list. -/
def dropSpaceLeft : List Char → List Char
  | [] => []
  | c :: rest => if c.isWhitespace then dropSpaceLeft rest else c :: rest

/-- Go `strings.TrimSpace`: removes leading and trailing whitespace. -/
def trimSpace (s : String) : String :=
  ⟨(dropSpaceLeft (dropSpaceLeft s.data).reverse).reverse⟩

/-- Abstraction of Go `time.Duration.String()`: the exact human formatting is
irrelevant to the properties verified here; only the rendered text matters as a
string appended after a fixed non-empty prefix. -/
def durationString (d : Int) : String := toString d

/-- `DeviceBinding` from binding.go: a binding between an API key and a device. -/
structure DeviceBinding where
  DeviceID  : String
  Type_     : String
  FirstSeen : Int
  LastSeen  : Int
  LastIP    : String
  Banned    : Bool
  BanReason : String
  BannedAt  : Int
  deriving Repr, DecidableEq

/-- The Go zero value `DeviceBinding{}`. -/
def zeroBinding : DeviceBinding :=
  { DeviceID := "", Type_ := "", FirstSeen := 0, LastSeen := 0,
    LastIP := "", Banned := false, BanReason := "", BannedAt := 0 }

/-- Association-list lookup mirroring Go map indexing `m[key]` (comma-ok). -/
def lookupKey : List (String × DeviceBinding) → String → Option DeviceBinding
  | [], _ => none
  | (k, b) :: rest, key => if k = key then some b else lookupKey rest key

/-- Removal of a key, mirroring Go `delete(m, key)` (keys are unique, so
removing every occurrence coincides with removing the single entry). -/
def eraseKey : List (String × DeviceBinding) → String → List (String × DeviceBinding)
  | [], _ => []
  | (k, b) :: rest, key =>
    if k = key then eraseKey rest key else (k, b) :: eraseKey rest key

/-- Go map assignment `m[key] = v`: replaces any existing entry for `key`. -/
def insertKey (m : List (String × DeviceBinding)) (key : String)
    (v : DeviceBinding) : List (String × DeviceBinding) :=
  (key, v) :: eraseKey m key

/-- `DeviceBindings` from binding.go; `Bindings = none` models a nil Go map. -/
structure DeviceBindings where
  Bindings : Option (List (String × DeviceBinding))
  deriving Repr, DecidableEq

/-- `NewDeviceBindings`: a fresh instance with an allocated empty map. -/
def NewDeviceBindings : DeviceBindings := ⟨some []⟩

/-- `DeviceBindings.Get`: returns the binding for an API key, if it exists. -/
def DeviceBindings.Get (d : DeviceBindings) (apiKey : String) :
    DeviceBinding × Bool :=
  match d.Bindings with
  | none => (zeroBinding, false)
  | some m =>
    match lookupKey m apiKey with
    | some binding => (binding, true)
    | none => (zeroBinding, false)

/-- `DeviceBindings.Set`: creates or updates a binding for an API key; the Go
struct literal leaves `Banned`, `BanReason`, `BannedAt` at their zero values and
sets `LastIP` to `deviceID`. `now` stands for the `time.Now()` call. -/
def DeviceBindings.Set (d : DeviceBindings) (apiKey deviceID deviceType : String)
    (now : Int) : DeviceBindings :=
  let m := match d.Bindings with
    | none => ([] : List (String × DeviceBinding))
    | some m => m
  ⟨some (insertKey m apiKey
    { DeviceID := deviceID, Type_ := deviceType, FirstSeen := now,
      LastSeen := now, LastIP := deviceID, Banned := false,
      BanReason := "", BannedAt := 0 })⟩

/-- `DeviceBindings.UpdateLastSeen`: updates last-seen timestamp and IP. -/
def DeviceBindings.UpdateLastSeen (d : DeviceBindings) (apiKey currentIP : String)
    (now : Int) : DeviceBindings :=
  match d.Bindings with
  | none => d
  | some m =>
    match lookupKey m apiKey with
    | some binding =>
      ⟨some (insertKey m apiKey { binding with LastSeen := now, LastIP := currentIP })⟩
    | none => d

/-- `DeviceBindings.Ban`: marks an API key as banned. -/
def DeviceBindings.Ban (d : DeviceBindings) (apiKey reason : String)
    (now : Int) : DeviceBindings :=
  match d.Bindings with
  | none => d
  | some m =>
    match lookupKey m apiKey with
    | some binding =>
      ⟨some (insertKey m apiKey
        { binding with Banned := true, BanReason := reason, BannedAt := now })⟩
    | none => d

/-- `DeviceBindings.Unban`: removes the ban from an API key. -/
def DeviceBindings.Unban (d : DeviceBindings) (apiKey : String) : DeviceBindings :=
  match d.Bindings with
  | none => d
  | some m =>
    match lookupKey m apiKey with
    | some binding =>
      ⟨some (insertKey m apiKey
        { binding with Banned := false, BanReason := "", BannedAt := 0 })⟩
    | none => d

/-- `DeviceBindings.Delete`: removes the binding, reporting whether one existed. -/
def DeviceBindings.Delete (d : DeviceBindings) (apiKey : String) :
    DeviceBindings × Bool :=
  match d.Bindings with
  | none => (d, false)
  | some m =>
    match lookupKey m apiKey with
    | some _ => (⟨some (eraseKey m apiKey)⟩, true)
    | none => (d, false)

/-- `DeviceBindings.Clear`: removes all bindings (allocates a fresh empty map). -/
def DeviceBindings.Clear (_d : DeviceBindings) : DeviceBindings := ⟨some []⟩

/-! ### Spec-modelled `Store` wrappers

Modelled from the spec: the `Store` type itself (persistence wrapper over
`DeviceBindings`) is not among the provided sources. Per spec §4.1 each store
operation delegates to the in-memory collection and may additionally report a
persistence error; errors on the request hot path are logged and swallowed
(fail-open). Each wrapper therefore applies the corresponding `DeviceBindings`
operation and threads through an explicit `persistErr` flag standing for a
possible persistence failure, which never alters the in-memory result. -/

/-- Modelled from the spec: `Store.Save` — delegates to `DeviceBindings.Set`,
returning also a possible persistence error. -/
def Store.Save (d : DeviceBindings) (apiKey deviceID deviceType : String)
    (now : Int) (persistErr : Bool) : DeviceBindings × Bool :=
  (d.Set apiKey deviceID deviceType now, persistErr)

/-- Modelled from the spec: `Store.Ban` — delegates to `DeviceBindings.Ban`. -/
def Store.Ban (d : DeviceBindings) (apiKey reason : String) (now : Int)
    (persistErr : Bool) : DeviceBindings × Bool :=
  (d.Ban apiKey reason now, persistErr)

/-- Modelled from the spec: `Store.UpdateLastSeen` — delegates to
`DeviceBindings.UpdateLastSeen`. -/
def Store.UpdateLastSeen (d : DeviceBindings) (apiKey currentIP : String)
    (now : Int) (persistErr : Bool) : DeviceBindings × Bool :=
  (d.UpdateLastSeen apiKey currentIP now, persistErr)

/-- Modelled from the spec: `Store.Unban` — delegates to
`DeviceBindings.Unban`; the admin handler surfaces a persistence error as 500,
in which case (per spec, errors surfaced to caller) no update is reported. -/
def Store.Unban (d : DeviceBindings) (apiKey : String)
    (persistErr : Bool) : DeviceBindings × Bool :=
  if persistErr then (d, true) else (d.Unban apiKey, false)

/-! ### Middleware (binding.go, `Middleware.Handler` / `extractDeviceID`) -/

/-- `Config` from binding.go; `ConcurrentThreshold` is a `time.Duration`. -/
structure Config where
  Enabled             : Bool
  MaxDevices          : Int
  HeaderName          : String
  ConcurrentThreshold : Int
  deriving Repr, DecidableEq

/-- The metadata of an inbound request that the middleware consumes: the API
key stashed in the Gin context by the auth middleware (`""` when absent), the
resolved client IP, and the request headers. -/
structure Request where
  apiKey   : String
  clientIP : String
  headers  : List (String × String)
  deriving Repr, DecidableEq

/-- Gin `c.GetHeader(name)`: the header's value, or `""` when absent. -/
def getHeader (headers : List (String × String)) (name : String) : String :=
  match headers with
  | [] => ""
  | (k, v) :: rest => if k = name then v else getHeader rest name

/-- `Middleware.extractDeviceID` from binding.go: header value (trimmed) with
type `client_id` when non-blank, else the client IP with type `ip`. -/
def extractDeviceID (cfg : Config) (c : Request) : String × String :=
  let id := getHeader c.headers cfg.HeaderName
  if id ≠ "" then
    let trimmed := trimSpace id
    if trimmed ≠ "" then (trimmed, "client_id")
    else (c.clientIP, "ip")
  else (c.clientIP, "ip")

/-- The middleware's terminal outcome for one request: `next` models `c.Next()`
(request allowed through), `reject status code` models
`c.AbortWithStatusJSON(status, {error: code, ...})`. -/
inductive Decision where
  | next
  | reject (status : Nat) (code : String)
  deriving Repr, DecidableEq

/-- `Middleware.Handler` from binding.go as a pure step function:
given the configuration, the store state, the request, the current time and
the persistence-error flags of the three store calls the handler can make
(whose errors the code only logs), it yields the decision and the new store
state. -/
def handlerStep (cfg : Config) (store : DeviceBindings) (c : Request)
    (now : Int) (saveErr banErr updateErr : Bool) : Decision × DeviceBindings :=
  if cfg.Enabled = false then (Decision.next, store)
  else if c.apiKey = "" then (Decision.next, store)
  else
    let dev := extractDeviceID cfg c
    if dev.1 = "" then (Decision.next, store)
    else
      let gb := store.Get c.apiKey
      let currentIP := c.clientIP
      if gb.2 = false then
        (Decision.next, (Store.Save store c.apiKey dev.1 dev.2 now saveErr).1)
      else if gb.1.Banned = true then
        (Decision.reject 403 "api_key_banned", store)
      else
        let timeSinceLastSeen := now - gb.1.LastSeen
        if gb.1.LastIP ≠ "" ∧ gb.1.LastIP ≠ currentIP ∧
            timeSinceLastSeen < cfg.ConcurrentThreshold then
          (Decision.reject 403 "concurrent_usage_detected",
            (Store.Ban store c.apiKey
              ("Concurrent usage detected: different IP within " ++
                durationString timeSinceLastSeen) now banErr).1)
        else
          (Decision.next,
            (Store.UpdateLastSeen store c.apiKey currentIP now updateErr).1)

/-! ### Admin handler (handler.go, `Handler.UnbanKey`) -/

/-- The status and machine-readable error code of an admin HTTP response
(`""` for a successful response, which carries no error field). -/
structure AdminResponse where
  status : Nat
  code   : String
  deriving Repr, DecidableEq

/-- `Handler.UnbanKey` from handler.go as a pure function of the `api-key`
query parameter, the store state and the `Store.Unban` persistence-error flag:
yields the HTTP response and the new store state. -/
def UnbanKey (store : DeviceBindings) (queryApiKey : String)
    (unbanErr : Bool) : AdminResponse × DeviceBindings :=
  let apiKey := trimSpace queryApiKey
  if apiKey = "" then (⟨400, "missing_parameter"⟩, store)
  else
    let gb := store.Get apiKey
    if gb.2 = false then (⟨404, "not_found"⟩, store)
    else if gb.1.Banned = false then (⟨400, "not_banned"⟩, store)
    else
      let res := Store.Unban store apiKey unbanErr
      if res.2 = true then (⟨500, "internal_error"⟩, store)
      else (⟨200, ""⟩, res.1)

/-! ### Association-list lemmas -/

theorem lookupKey_eraseKey_self (m : List (String × DeviceBinding)) (k : String) :
    lookupKey (eraseKey m k) k = none := by
  induction m with
  | nil => rfl
  | cons p rest ih =>
    obtain ⟨ka, b⟩ := p
    by_cases h : ka = k
    · simp [eraseKey, h, ih]
    · simp [eraseKey, lookupKey, h, ih]

theorem lookupKey_eraseKey_ne (m : List (String × DeviceBinding)) (k k' : String)
    (h : k' ≠ k) : lookupKey (eraseKey m k) k' = lookupKey m k' := by
  induction m with
  | nil => rfl
  | cons p rest ih =>
    obtain ⟨ka, b⟩ := p
    by_cases hk : ka = k
    · subst hk
      simp [eraseKey, lookupKey, Ne.symm h, ih]
    · by_cases hk' : ka = k'
      · simp [eraseKey, lookupKey, hk, hk', h]
      · simp [eraseKey, lookupKey, hk, hk', ih]

theorem lookupKey_insertKey_self (m : List (String × DeviceBinding)) (k : String)
    (v : DeviceBinding) : lookupKey (insertKey m k v) k = some v := by
  simp [insertKey, lookupKey]

theorem lookupKey_insertKey_ne (m : List (String × DeviceBinding)) (k k' : String)
    (v : DeviceBinding) (h : k' ≠ k) :
    lookupKey (insertKey m k v) k' = lookupKey m k' := by
  simp [insertKey, lookupKey, Ne.symm h, lookupKey_eraseKey_ne m k k' h]

/-! ### `Get` after each store operation -/

theorem Get_Set_self (d : DeviceBindings) (k dev t : String) (n : Int) :
    (d.Set k dev t n).Get k =
      ({ DeviceID := dev, Type_ := t, FirstSeen := n, LastSeen := n,
         LastIP := dev, Banned := false, BanReason := "", BannedAt := 0 }, true) := by
  cases hb : d.Bindings <;>
    simp [DeviceBindings.Set, DeviceBindings.Get, hb, lookupKey_insertKey_self]

theorem Get_Set_ne (d : DeviceBindings) (k k' dev t : String) (n : Int)
    (h : k' ≠ k) : (d.Set k dev t n).Get k' = d.Get k' := by
  cases hb : d.Bindings with
  | none =>
    simp [DeviceBindings.Set, DeviceBindings.Get, hb, insertKey, eraseKey,
      lookupKey, Ne.symm h]
  | some m =>
    simp [DeviceBindings.Set, DeviceBindings.Get, hb,
      lookupKey_insertKey_ne _ _ _ _ h]

theorem Get_Ban_self (d : DeviceBindings) (k r : String) (n : Int)
    (hEx : (d.Get k).2 = true) :
    (d.Ban k r n).Get k =
      ({ (d.Get k).1 with Banned := true, BanReason := r, BannedAt := n }, true) := by
  cases hb : d.Bindings with
  | none => simp [DeviceBindings.Get, hb] at hEx
  | some m =>
    cases hl : lookupKey m k with
    | none => simp [DeviceBindings.Get, hb, hl] at hEx
    | some b =>
      simp [DeviceBindings.Ban, DeviceBindings.Get, hb, hl, lookupKey_insertKey_self]

theorem Get_Ban_ne (d : DeviceBindings) (k k' r : String) (n : Int)
    (h : k' ≠ k) : (d.Ban k r n).Get k' = d.Get k' := by
  cases hb : d.Bindings with
  | none => simp [DeviceBindings.Ban, hb]
  | some m =>
    cases hl : lookupKey m k with
    | none => simp [DeviceBindings.Ban, hb, hl]
    | some b =>
      simp [DeviceBindings.Ban, DeviceBindings.Get, hb, hl,
        lookupKey_insertKey_ne _ _ _ _ h]

theorem Ban_not_found (d : DeviceBindings) (k r : String) (n : Int)
    (hEx : (d.Get k).2 = false) : d.Ban k r n = d := by
  cases hb : d.Bindings with
  | none => simp [DeviceBindings.Ban, hb]
  | some m =>
    cases hl : lookupKey m k with
    | none => simp [DeviceBindings.Ban, hb, hl]
    | some b => simp [DeviceBindings.Get, hb, hl] at hEx

theorem Get_UpdateLastSeen_self (d : DeviceBindings) (k ip : String) (n : Int)
    (hEx : (d.Get k).2 = true) :
    (d.UpdateLastSeen k ip n).Get k =
      ({ (d.Get k).1 with LastSeen := n, LastIP := ip }, true) := by
  cases hb : d.Bindings with
  | none => simp [DeviceBindings.Get, hb] at hEx
  | some m =>
    cases hl : lookupKey m k with
    | none => simp [DeviceBindings.Get, hb, hl] at hEx
    | some b =>
      simp [DeviceBindings.UpdateLastSeen, DeviceBindings.Get, hb, hl,
        lookupKey_insertKey_self]

theorem Get_UpdateLastSeen_ne (d : DeviceBindings) (k k' ip : String) (n : Int)
    (h : k' ≠ k) : (d.UpdateLastSeen k ip n).Get k' = d.Get k' := by
  cases hb : d.Bindings with
  | none => simp [DeviceBindings.UpdateLastSeen, hb]
  | some m =>
    cases hl : lookupKey m k with
    | none => simp [DeviceBindings.UpdateLastSeen, hb, hl]
    | some b =>
      simp [DeviceBindings.UpdateLastSeen, DeviceBindings.Get, hb, hl,
        lookupKey_insertKey_ne _ _ _ _ h]

theorem UpdateLastSeen_not_found (d : DeviceBindings) (k ip : String) (n : Int)
    (hEx : (d.Get k).2 = false) : d.UpdateLastSeen k ip n = d := by
  cases hb : d.Bindings with
  | none => simp [DeviceBindings.UpdateLastSeen, hb]
  | some m =>
    cases hl : lookupKey m k with
    | none => simp [DeviceBindings.UpdateLastSeen, hb, hl]
    | some b => simp [DeviceBindings.Get, hb, hl] at hEx

theorem Get_Unban_self (d : DeviceBindings) (k : String)
    (hEx : (d.Get k).2 = true) :
    (d.Unban k).Get k =
      ({ (d.Get k).1 with Banned := false, BanReason := "", BannedAt := 0 }, true) := by
  cases hb : d.Bindings with
  | none => simp [DeviceBindings.Get, hb] at hEx
  | some m =>
    cases hl : lookupKey m k with
    | none => simp [DeviceBindings.Get, hb, hl] at hEx
    | some b =>
      simp [DeviceBindings.Unban, DeviceBindings.Get, hb, hl, lookupKey_insertKey_self]

theorem Get_Unban_ne (d : DeviceBindings) (k k' : String)
    (h : k' ≠ k) : (d.Unban k).Get k' = d.Get k' := by
  cases hb : d.Bindings with
  | none => simp [DeviceBindings.Unban, hb]
  | some m =>
    cases hl : lookupKey m k with
    | none => simp [DeviceBindings.Unban, hb, hl]
    | some b =>
      simp [DeviceBindings.Unban, DeviceBindings.Get, hb, hl,
        lookupKey_insertKey_ne _ _ _ _ h]

theorem Get_Delete_self (d : DeviceBindings) (k : String) :
    ((d.Delete k).1.Get k).2 = false := by
  cases hb : d.Bindings with
  | none => simp [DeviceBindings.Delete, DeviceBindings.Get, hb]
  | some m =>
    cases hl : lookupKey m k with
    | none => simp [DeviceBindings.Delete, DeviceBindings.Get, hb, hl]
    | some b =>
      simp [DeviceBindings.Delete, DeviceBindings.Get, hb, hl,
        lookupKey_eraseKey_self]

theorem Get_Delete_ne (d : DeviceBindings) (k k' : String)
    (h : k' ≠ k) : (d.Delete k).1.Get k' = d.Get k' := by
  cases hb : d.Bindings with
  | none => simp [DeviceBindings.Delete, hb]
  | some m =>
    cases hl : lookupKey m k with
    | none => simp [DeviceBindings.Delete, hb, hl]
    | some b =>
      simp [DeviceBindings.Delete, DeviceBindings.Get, hb, hl,
        lookupKey_eraseKey_ne _ _ _ h]

theorem Delete_reports_existence (d : DeviceBindings) (k : String) :
    (d.Delete k).2 = (d.Get k).2 := by
  cases hb : d.Bindings with
  | none => simp [DeviceBindings.Delete, DeviceBindings.Get, hb]
  | some m =>
    cases hl : lookupKey m k with
    | none => simp [DeviceBindings.Delete, DeviceBindings.Get, hb, hl]
    | some b => simp [DeviceBindings.Delete, DeviceBindings.Get, hb, hl]

theorem Get_Clear (d : DeviceBindings) (k : String) :
    (d.Clear).Get k = (zeroBinding, false) := by
  simp [DeviceBindings.Clear, DeviceBindings.Get, lookupKey]

/-! ### The ban-field invariant under sequences of store operations -/

/-- The spec's ban-field invariant on a single binding:
`Banned == true` iff `BanReason` is non-empty and `BannedAt` is set. -/
def banInv (b : DeviceBinding) : Prop :=
  b.Banned = true ↔ (b.BanReason ≠ "" ∧ b.BannedAt ≠ 0)

instance (b : DeviceBinding) : Decidable (banInv b) := by
  unfold banInv; infer_instance

/-- Every stored binding satisfies the ban-field invariant. -/
def storeInv (d : DeviceBindings) : Prop :=
  ∀ k, (d.Get k).2 = true → banInv (d.Get k).1

/-- One store operation, with its arguments (`now` stands for the
`time.Now()` the operation reads). -/
inductive StoreOp where
  | set (apiKey deviceID deviceType : String) (now : Int)
  | update (apiKey currentIP : String) (now : Int)
  | ban (apiKey reason : String) (now : Int)
  | unban (apiKey : String)
  | del (apiKey : String)
  | clear
  deriving Repr, DecidableEq

/-- Applies one store operation to the collection. -/
def applyOp (d : DeviceBindings) : StoreOp → DeviceBindings
  | .set k dev t n => d.Set k dev t n
  | .update k ip n => d.UpdateLastSeen k ip n
  | .ban k r n => d.Ban k r n
  | .unban k => d.Unban k
  | .del k => (d.Delete k).1
  | .clear => d.Clear

/-- Applies a sequence of store operations, oldest first. -/
def applyOps (d : DeviceBindings) (ops : List StoreOp) : DeviceBindings :=
  ops.foldl applyOp d

/-- Well-formedness of an operation's arguments: a `ban` carries a non-empty
reason and a non-zero timestamp (`time.Now()` is never the zero time); every
other operation is unconstrained. -/
def opWF : StoreOp → Prop
  | .ban _ reason now => reason ≠ "" ∧ now ≠ 0
  | _ => True

instance (op : StoreOp) : Decidable (opWF op) := by
  cases op <;> (unfold opWF; infer_instance)

theorem storeInv_Set (d : DeviceBindings) (k dev t : String) (n : Int)
    (hInv : storeInv d) : storeInv (d.Set k dev t n) := by
  intro k' hk'
  by_cases h : k' = k
  · subst h
    rw [Get_Set_self]
    simp [banInv]
  · rw [Get_Set_ne d k k' dev t n h] at hk' ⊢
    exact hInv k' hk'

theorem storeInv_UpdateLastSeen (d : DeviceBindings) (k ip : String) (n : Int)
    (hInv : storeInv d) : storeInv (d.UpdateLastSeen k ip n) := by
  intro k' hk'
  cases hEx : (d.Get k).2 with
  | false =>
    rw [UpdateLastSeen_not_found d k ip n hEx] at hk' ⊢
    exact hInv k' hk'
  | true =>
    by_cases h : k' = k
    · subst h
      rw [Get_UpdateLastSeen_self d k' ip n hEx]
      have := hInv k' hEx
      simpa [banInv] using this
    · rw [Get_UpdateLastSeen_ne d k k' ip n h] at hk' ⊢
      exact hInv k' hk'

theorem storeInv_Ban (d : DeviceBindings) (k r : String) (n : Int)
    (hr : r ≠ "") (hn : n ≠ 0) (hInv : storeInv d) : storeInv (d.Ban k r n) := by
  intro k' hk'
  cases hEx : (d.Get k).2 with
  | false =>
    rw [Ban_not_found d k r n hEx] at hk' ⊢
    exact hInv k' hk'
  | true =>
    by_cases h : k' = k
    · subst h
      rw [Get_Ban_self d k' r n hEx]
      simp [banInv, hr, hn]
    · rw [Get_Ban_ne d k k' r n h] at hk' ⊢
      exact hInv k' hk'

theorem storeInv_Unban (d : DeviceBindings) (k : String)
    (hInv : storeInv d) : storeInv (d.Unban k) := by
  intro k' hk'
  cases hEx : (d.Get k).2 with
  | false =>
    have hre : d.Unban k = d := by
      cases hb : d.Bindings with
      | none => simp [DeviceBindings.Unban, hb]
      | some m =>
        cases hl : lookupKey m k with
        | none => simp [DeviceBindings.Unban, hb, hl]
        | some b => simp [DeviceBindings.Get, hb, hl] at hEx
    rw [hre] at hk' ⊢
    exact hInv k' hk'
  | true =>
    by_cases h : k' = k
    · subst h
      rw [Get_Unban_self d k' hEx]
      simp [banInv]
    · rw [Get_Unban_ne d k k' h] at hk' ⊢
      exact hInv k' hk'

theorem storeInv_Delete (d : DeviceBindings) (k : String)
    (hInv : storeInv d) : storeInv (d.Delete k).1 := by
  intro k' hk'
  by_cases h : k' = k
  · subst h
    rw [Get_Delete_self] at hk'
    exact absurd hk' (by simp)
  · rw [Get_Delete_ne d k k' h] at hk' ⊢
    exact hInv k' hk'

theorem storeInv_Clear (d : DeviceBindings) : storeInv d.Clear := by
  intro k' hk'
  rw [Get_Clear] at hk'
  exact absurd hk' (by simp)

theorem storeInv_applyOp (d : DeviceBindings) (op : StoreOp)
    (hWF : opWF op) (hInv : storeInv d) : storeInv (applyOp d op) := by
  cases op with
  | set k dev t n => exact storeInv_Set d k dev t n hInv
  | update k ip n => exact storeInv_UpdateLastSeen d k ip n hInv
  | ban k r n => exact storeInv_Ban d k r n hWF.1 hWF.2 hInv
  | unban k => exact storeInv_Unban d k hInv
  | del k => exact storeInv_Delete d k hInv
  | clear => exact storeInv_Clear d

/-- The ban reason built by the middleware is never the empty string: it
extends a fixed non-empty literal. -/
theorem concurrentReason_ne_empty (s : String) :
    "Concurrent usage detected: different IP within " ++ s ≠ "" := by
  intro h
  have h2 := congrArg String.length h
  rw [String.length_append] at h2
  have h3 : ("Concurrent usage detected: different IP within ").length = 47 := rfl
  have h4 : ("" : String).length = 0 := rfl
  rw [h3, h4] at h2
  omega

/-! ### Claims -/

/-- Claim C1: for an existing, unbanned binding with `LastIP` set, a request
from a different IP with elapsed time strictly below `ConcurrentThreshold` is
rejected with code `concurrent_usage_detected`, `Ban` is called with a
non-empty reason, and afterwards the binding has `Banned = true` with a
non-empty `BanReason`. -/
theorem claim_C1_concurrent_usage_ban (cfg : Config) (store : DeviceBindings)
    (c : Request) (now : Int) (saveErr banErr updateErr : Bool)
    (hE : cfg.Enabled = true)
    (hK : c.apiKey ≠ "")
    (hD : (extractDeviceID cfg c).1 ≠ "")
    (hEx : (store.Get c.apiKey).2 = true)
    (hB : (store.Get c.apiKey).1.Banned = false)
    (hIP : (store.Get c.apiKey).1.LastIP ≠ "")
    (hNe : (store.Get c.apiKey).1.LastIP ≠ c.clientIP)
    (hT : now - (store.Get c.apiKey).1.LastSeen < cfg.ConcurrentThreshold) :
    (handlerStep cfg store c now saveErr banErr updateErr).1 =
        Decision.reject 403 "concurrent_usage_detected" ∧
    ((handlerStep cfg store c now saveErr banErr updateErr).2.Get c.apiKey).2 = true ∧
    ((handlerStep cfg store c now saveErr banErr updateErr).2.Get c.apiKey).1.Banned = true ∧
    ((handlerStep cfg store c now saveErr banErr updateErr).2.Get c.apiKey).1.BanReason ≠ "" := by
  simp [handlerStep, hE, hK, hD, hEx, hB, hIP, hNe, hT, Store.Ban,
    Get_Ban_self store c.apiKey _ now hEx, concurrentReason_ne_empty]

/-- Witness for claim C1: key `k1` bound to IP `1.1.1.1` (last seen at 10),
request from `2.2.2.2` at time 30 with threshold 60 is rejected and banned. -/
theorem claim_C1_witness :
    ((⟨some [("k1", ⟨"1.1.1.1", "ip", 0, 10, "1.1.1.1", false, "", 0⟩)]⟩ :
        DeviceBindings).Get "k1").2 = true ∧
    (handlerStep ⟨true, 1, "X-Device-ID", 60⟩
        ⟨some [("k1", ⟨"1.1.1.1", "ip", 0, 10, "1.1.1.1", false, "", 0⟩)]⟩
        ⟨"k1", "2.2.2.2", []⟩ 30 false false false).1 =
      Decision.reject 403 "concurrent_usage_detected" ∧
    ((handlerStep ⟨true, 1, "X-Device-ID", 60⟩
        ⟨some [("k1", ⟨"1.1.1.1", "ip", 0, 10, "1.1.1.1", false, "", 0⟩)]⟩
        ⟨"k1", "2.2.2.2", []⟩ 30 false false false).2.Get "k1").2 = true ∧
    ((handlerStep ⟨true, 1, "X-Device-ID", 60⟩
        ⟨some [("k1", ⟨"1.1.1.1", "ip", 0, 10, "1.1.1.1", false, "", 0⟩)]⟩
        ⟨"k1", "2.2.2.2", []⟩ 30 false false false).2.Get "k1").1.Banned = true ∧
    ((handlerStep ⟨true, 1, "X-Device-ID", 60⟩
        ⟨some [("k1", ⟨"1.1.1.1", "ip", 0, 10, "1.1.1.1", false, "", 0⟩)]⟩
        ⟨"k1", "2.2.2.2", []⟩ 30 false false false).2.Get "k1").1.BanReason ≠ "" :=
  ⟨by decide,
    claim_C1_concurrent_usage_ban ⟨true, 1, "X-Device-ID", 60⟩
      ⟨some [("k1", ⟨"1.1.1.1", "ip", 0, 10, "1.1.1.1", false, "", 0⟩)]⟩
      ⟨"k1", "2.2.2.2", []⟩ 30 false false false
      (by decide) (by decide) (by decide) (by decide) (by decide)
      (by decide) (by decide) (by decide)⟩

/-- Claim C2: for an existing, unbanned binding, when no concurrency violation
is classified (same IP, or no prior `LastIP`, or elapsed at least
`ConcurrentThreshold`), the request is allowed and the binding's `LastSeen`
becomes `now` and its `LastIP` the current client IP (other fields unchanged). -/
theorem claim_C2_no_violation_allowed (cfg : Config) (store : DeviceBindings)
    (c : Request) (now : Int) (saveErr banErr updateErr : Bool)
    (hE : cfg.Enabled = true)
    (hK : c.apiKey ≠ "")
    (hD : (extractDeviceID cfg c).1 ≠ "")
    (hEx : (store.Get c.apiKey).2 = true)
    (hB : (store.Get c.apiKey).1.Banned = false)
    (hOk : ¬ ((store.Get c.apiKey).1.LastIP ≠ "" ∧
      (store.Get c.apiKey).1.LastIP ≠ c.clientIP ∧
      now - (store.Get c.apiKey).1.LastSeen < cfg.ConcurrentThreshold)) :
    (handlerStep cfg store c now saveErr banErr updateErr).1 = Decision.next ∧
    ((handlerStep cfg store c now saveErr banErr updateErr).2.Get c.apiKey) =
      ({ (store.Get c.apiKey).1 with LastSeen := now, LastIP := c.clientIP }, true) := by
  simp [handlerStep, hE, hK, hD, hEx, hB, hOk, Store.UpdateLastSeen,
    Get_UpdateLastSeen_self store c.apiKey c.clientIP now hEx]

/-- Witness for claim C2: a same-IP request long after `LastSeen` (elapsed 990,
any threshold) is allowed and refreshes `LastSeen`/`LastIP`. -/
theorem claim_C2_witness :
    ¬ ((((⟨some [("k1", ⟨"1.1.1.1", "ip", 0, 10, "1.1.1.1", false, "", 0⟩)]⟩ :
        DeviceBindings).Get "k1").1.LastIP ≠ "") ∧
      (((⟨some [("k1", ⟨"1.1.1.1", "ip", 0, 10, "1.1.1.1", false, "", 0⟩)]⟩ :
        DeviceBindings).Get "k1").1.LastIP ≠ "1.1.1.1") ∧
      (1000 : Int) - ((⟨some [("k1", ⟨"1.1.1.1", "ip", 0, 10, "1.1.1.1", false, "", 0⟩)]⟩ :
        DeviceBindings).Get "k1").1.LastSeen < 60) ∧
    (handlerStep ⟨true, 1, "X-Device-ID", 60⟩
        ⟨some [("k1", ⟨"1.1.1.1", "ip", 0, 10, "1.1.1.1", false, "", 0⟩)]⟩
        ⟨"k1", "1.1.1.1", []⟩ 1000 false false false).1 = Decision.next ∧
    ((handlerStep ⟨true, 1, "X-Device-ID", 60⟩
        ⟨some [("k1", ⟨"1.1.1.1", "ip", 0, 10, "1.1.1.1", false, "", 0⟩)]⟩
        ⟨"k1", "1.1.1.1", []⟩ 1000 false false false).2.Get "k1") =
      (⟨"1.1.1.1", "ip", 0, 1000, "1.1.1.1", false, "", 0⟩, true) :=
  ⟨by decide,
    claim_C2_no_violation_allowed ⟨true, 1, "X-Device-ID", 60⟩
      ⟨some [("k1", ⟨"1.1.1.1", "ip", 0, 10, "1.1.1.1", false, "", 0⟩)]⟩
      ⟨"k1", "1.1.1.1", []⟩ 1000 false false false
      (by decide) (by decide) (by decide) (by decide) (by decide) (by decide)⟩

/-- Claim C3: a request for a banned binding is rejected with code
`api_key_banned` regardless of the current IP or the elapsed time, and the
store is left completely unchanged (so the key stays banned for every later
request until an `Unban`). -/
theorem claim_C3_banned_always_rejected (cfg : Config) (store : DeviceBindings)
    (c : Request) (now : Int) (saveErr banErr updateErr : Bool)
    (hE : cfg.Enabled = true)
    (hK : c.apiKey ≠ "")
    (hD : (extractDeviceID cfg c).1 ≠ "")
    (hEx : (store.Get c.apiKey).2 = true)
    (hB : (store.Get c.apiKey).1.Banned = true) :
    handlerStep cfg store c now saveErr banErr updateErr =
      (Decision.reject 403 "api_key_banned", store) := by
  simp [handlerStep, hE, hK, hD, hEx, hB]

/-- Witness for claim C3: a banned key is rejected even from the bound IP. -/
theorem claim_C3_witness :
    ((⟨some [("k1", ⟨"1.1.1.1", "ip", 0, 10, "1.1.1.1", true, "r", 5⟩)]⟩ :
        DeviceBindings).Get "k1").1.Banned = true ∧
    handlerStep ⟨true, 1, "X-Device-ID", 60⟩
        ⟨some [("k1", ⟨"1.1.1.1", "ip", 0, 10, "1.1.1.1", true, "r", 5⟩)]⟩
        ⟨"k1", "1.1.1.1", []⟩ 5000 false false false =
      (Decision.reject 403 "api_key_banned",
        ⟨some [("k1", ⟨"1.1.1.1", "ip", 0, 10, "1.1.1.1", true, "r", 5⟩)]⟩) :=
  ⟨by decide,
    claim_C3_banned_always_rejected ⟨true, 1, "X-Device-ID", 60⟩
      ⟨some [("k1", ⟨"1.1.1.1", "ip", 0, 10, "1.1.1.1", true, "r", 5⟩)]⟩
      ⟨"k1", "1.1.1.1", []⟩ 5000 false false false
      (by decide) (by decide) (by decide) (by decide) (by decide)⟩

/-- Claim C4: with no existing binding, the first request (with any non-empty
device identity) is allowed — for either value of the save persistence-error
flag (fail-open) — and creates a binding with `FirstSeen = LastSeen = now` and
`Banned = false`. -/
theorem claim_C4_first_request_registers (cfg : Config) (store : DeviceBindings)
    (c : Request) (now : Int) (saveErr banErr updateErr : Bool)
    (hE : cfg.Enabled = true)
    (hK : c.apiKey ≠ "")
    (hD : (extractDeviceID cfg c).1 ≠ "")
    (hEx : (store.Get c.apiKey).2 = false) :
    (handlerStep cfg store c now saveErr banErr updateErr).1 = Decision.next ∧
    ((handlerStep cfg store c now saveErr banErr updateErr).2.Get c.apiKey) =
      ({ DeviceID := (extractDeviceID cfg c).1, Type_ := (extractDeviceID cfg c).2,
         FirstSeen := now, LastSeen := now, LastIP := (extractDeviceID cfg c).1,
         Banned := false, BanReason := "", BannedAt := 0 }, true) := by
  simp [handlerStep, hE, hK, hD, hEx, Store.Save, Get_Set_self]

/-- Witness for claim C4: a previously-unseen key is registered and allowed,
with the save persistence error flag set (fail-open). -/
theorem claim_C4_witness :
    ((⟨some []⟩ : DeviceBindings).Get "k1").2 = false ∧
    (handlerStep ⟨true, 1, "X-Device-ID", 60⟩ ⟨some []⟩
        ⟨"k1", "1.2.3.4", [("X-Device-ID", " dev-7 ")]⟩ 42 true false false).1 =
      Decision.next ∧
    ((handlerStep ⟨true, 1, "X-Device-ID", 60⟩ ⟨some []⟩
        ⟨"k1", "1.2.3.4", [("X-Device-ID", " dev-7 ")]⟩ 42 true false false).2.Get "k1") =
      (⟨"dev-7", "client_id", 42, 42, "dev-7", false, "", 0⟩, true) :=
  ⟨by decide,
    claim_C4_first_request_registers ⟨true, 1, "X-Device-ID", 60⟩ ⟨some []⟩
      ⟨"k1", "1.2.3.4", [("X-Device-ID", " dev-7 ")]⟩ 42 true false false
      (by decide) (by decide) (by decide) (by decide)⟩

/-- Counterexample to claim C5: a registering request with a declared device
header is accepted (`c.Next()`), yet `Save` stores `LastIP = deviceID`
(the header value `dev-1`), not the request's client IP `9.9.9.9`; so the
stored `LastIP` does not equal the client IP of the most recently accepted
request. -/
theorem claim_C5_counterexample :
    (handlerStep ⟨true, 1, "X-Device-ID", 60⟩ ⟨some []⟩
        ⟨"k1", "9.9.9.9", [("X-Device-ID", "dev-1")]⟩ 100 false false false).1 =
      Decision.next ∧
    ((handlerStep ⟨true, 1, "X-Device-ID", 60⟩ ⟨some []⟩
        ⟨"k1", "9.9.9.9", [("X-Device-ID", "dev-1")]⟩ 100 false false false).2.Get
          "k1").1.LastIP = "dev-1" ∧
    "dev-1" ≠ "9.9.9.9" := by decide

/-- Claim C5 (amended): immediately after registration the stored `LastIP`
equals the extracted device identity (which is the client IP only when no
device header is declared); after every subsequently accepted request for an
existing, unbanned binding, `LastIP` equals that request's client IP. -/
theorem claim_C5_lastip_amended (cfg : Config) (store : DeviceBindings)
    (c : Request) (now : Int) (saveErr banErr updateErr : Bool)
    (hE : cfg.Enabled = true)
    (hK : c.apiKey ≠ "")
    (hD : (extractDeviceID cfg c).1 ≠ "") :
    ((store.Get c.apiKey).2 = false →
      ((handlerStep cfg store c now saveErr banErr updateErr).2.Get c.apiKey).1.LastIP =
        (extractDeviceID cfg c).1) ∧
    ((store.Get c.apiKey).2 = true → (store.Get c.apiKey).1.Banned = false →
      (handlerStep cfg store c now saveErr banErr updateErr).1 = Decision.next →
      ((handlerStep cfg store c now saveErr banErr updateErr).2.Get c.apiKey).1.LastIP =
        c.clientIP) := by
  constructor
  · intro hEx
    simp [handlerStep, hE, hK, hD, hEx, Store.Save, Get_Set_self]
  · intro hEx hB hNext
    by_cases hV : ((store.Get c.apiKey).1.LastIP ≠ "" ∧
        (store.Get c.apiKey).1.LastIP ≠ c.clientIP ∧
        now - (store.Get c.apiKey).1.LastSeen < cfg.ConcurrentThreshold)
    · simp [handlerStep, hE, hK, hD, hEx, hB, hV] at hNext
    · simp [handlerStep, hE, hK, hD, hEx, hB, hV, Store.UpdateLastSeen,
        Get_UpdateLastSeen_self store c.apiKey c.clientIP now hEx]

/-- Witness for claim C5 (amended), at a registering request with a declared
device header. -/
theorem claim_C5_witness :
    ((⟨some []⟩ : DeviceBindings).Get "k1").2 = false ∧
    ((((⟨some []⟩ : DeviceBindings).Get "k1").2 = false →
      ((handlerStep ⟨true, 1, "X-Device-ID", 60⟩ ⟨some []⟩
          ⟨"k1", "9.9.9.9", [("X-Device-ID", "dev-1")]⟩ 100 false false false).2.Get
            "k1").1.LastIP =
        (extractDeviceID ⟨true, 1, "X-Device-ID", 60⟩
          ⟨"k1", "9.9.9.9", [("X-Device-ID", "dev-1")]⟩).1) ∧
    (((⟨some []⟩ : DeviceBindings).Get "k1").2 = true →
      ((⟨some []⟩ : DeviceBindings).Get "k1").1.Banned = false →
      (handlerStep ⟨true, 1, "X-Device-ID", 60⟩ ⟨some []⟩
          ⟨"k1", "9.9.9.9", [("X-Device-ID", "dev-1")]⟩ 100 false false false).1 =
        Decision.next →
      ((handlerStep ⟨true, 1, "X-Device-ID", 60⟩ ⟨some []⟩
          ⟨"k1", "9.9.9.9", [("X-Device-ID", "dev-1")]⟩ 100 false false false).2.Get
            "k1").1.LastIP = "9.9.9.9")) :=
  ⟨by decide,
    claim_C5_lastip_amended ⟨true, 1, "X-Device-ID", 60⟩ ⟨some []⟩
      ⟨"k1", "9.9.9.9", [("X-Device-ID", "dev-1")]⟩ 100 false false false
      (by decide) (by decide) (by decide)⟩

/-- Claim C6: the admin `UnbanKey` returns 400 `missing_parameter` on a blank
key, 404 `not_found` when no binding exists, 400 `not_banned` when the binding
is not banned, and on success returns 200 and clears exactly the three ban
fields, leaving `DeviceID`, `Type`, `FirstSeen`, `LastSeen` and `LastIP`
unchanged. -/
theorem claim_C6_unban_contract (store : DeviceBindings) (q : String)
    (unbanErr : Bool) :
    (trimSpace q = "" →
      UnbanKey store q unbanErr = (⟨400, "missing_parameter"⟩, store)) ∧
    (trimSpace q ≠ "" → (store.Get (trimSpace q)).2 = false →
      UnbanKey store q unbanErr = (⟨404, "not_found"⟩, store)) ∧
    (trimSpace q ≠ "" → (store.Get (trimSpace q)).2 = true →
      (store.Get (trimSpace q)).1.Banned = false →
      UnbanKey store q unbanErr = (⟨400, "not_banned"⟩, store)) ∧
    (trimSpace q ≠ "" → (store.Get (trimSpace q)).2 = true →
      (store.Get (trimSpace q)).1.Banned = true → unbanErr = false →
      (UnbanKey store q unbanErr).1 = ⟨200, ""⟩ ∧
      ((UnbanKey store q unbanErr).2.Get (trimSpace q)) =
        ({ (store.Get (trimSpace q)).1 with
            Banned := false, BanReason := "", BannedAt := 0 }, true)) := by
  refine ⟨?_, ?_, ?_, ?_⟩
  · intro h; simp [UnbanKey, h]
  · intro h hEx; simp [UnbanKey, h, hEx]
  · intro h hEx hB; simp [UnbanKey, h, hEx, hB]
  · intro h hEx hB hErr
    simp [UnbanKey, h, hEx, hB, hErr, Store.Unban,
      Get_Unban_self store (trimSpace q) hEx]

/-- Witness for claim C6: unbanning banned key `k1` (passed with surrounding
whitespace) succeeds and clears exactly the three ban fields. -/
theorem claim_C6_witness :
    ((⟨some [("k1", ⟨"dev", "ip", 1, 2, "3.3.3.3", true, "reason", 4⟩)]⟩ :
        DeviceBindings).Get "k1").1.Banned = true ∧
    (UnbanKey ⟨some [("k1", ⟨"dev", "ip", 1, 2, "3.3.3.3", true, "reason", 4⟩)]⟩
        " k1 " false).1 = ⟨200, ""⟩ ∧
    ((UnbanKey ⟨some [("k1", ⟨"dev", "ip", 1, 2, "3.3.3.3", true, "reason", 4⟩)]⟩
        " k1 " false).2.Get "k1") =
      (⟨"dev", "ip", 1, 2, "3.3.3.3", false, "", 0⟩, true) :=
  ⟨by decide,
    (claim_C6_unban_contract
        ⟨some [("k1", ⟨"dev", "ip", 1, 2, "3.3.3.3", true, "reason", 4⟩)]⟩
        " k1 " false).2.2.2
      (by decide) (by decide) (by decide) rfl⟩

/-- Claim C7: `Delete(K)` returns true iff a binding for `K` existed, a `Get`
after `Delete(K)` reports non-existence, and after `Clear()` the collection is
empty: every `Get` reports non-existence and the binding map is the empty map. -/
theorem claim_C7_delete_clear_contract (d : DeviceBindings) (k k' : String) :
    ((d.Delete k).2 = true ↔ (d.Get k).2 = true) ∧
    ((d.Delete k).1.Get k).2 = false ∧
    ((d.Clear).Get k').2 = false ∧
    (d.Clear).Bindings = some [] :=
  ⟨by rw [Delete_reports_existence], Get_Delete_self d k, by rw [Get_Clear], rfl⟩

/-- Claim C8: the identity extractor is the pure function of the request
metadata that returns the trimmed configured-header value with type
`client_id` when that value is non-blank after trimming, and otherwise the
client IP with type `ip`. -/
theorem claim_C8_extract_contract (cfg : Config) (c : Request) :
    (trimSpace (getHeader c.headers cfg.HeaderName) ≠ "" →
      extractDeviceID cfg c =
        (trimSpace (getHeader c.headers cfg.HeaderName), "client_id")) ∧
    (trimSpace (getHeader c.headers cfg.HeaderName) = "" →
      extractDeviceID cfg c = (c.clientIP, "ip")) := by
  constructor
  · intro h
    by_cases hid : getHeader c.headers cfg.HeaderName = ""
    · rw [hid] at h; exact absurd rfl h
    · simp [extractDeviceID, hid, h]
  · intro h
    by_cases hid : getHeader c.headers cfg.HeaderName = ""
    · simp [extractDeviceID, hid]
    · simp [extractDeviceID, hid, h]

/-- Witness for claim C8: a padded header value is trimmed and classified as
`client_id`. -/
theorem claim_C8_witness :
    trimSpace (getHeader [("X-Device-ID", " dev-9 ")] "X-Device-ID") ≠ "" ∧
    extractDeviceID ⟨true, 1, "X-Device-ID", 60⟩
        ⟨"k1", "7.7.7.7", [("X-Device-ID", " dev-9 ")]⟩ = ("dev-9", "client_id") :=
  ⟨by decide,
    (claim_C8_extract_contract ⟨true, 1, "X-Device-ID", 60⟩
      ⟨"k1", "7.7.7.7", [("X-Device-ID", " dev-9 ")]⟩).1 (by decide)⟩

/-- Counterexample to claim C9: the operation sequence
`Set("k1","dev","ip")` then `Ban("k1","")` — a store-operation sequence in the
claim's sense — yields a stored binding with `Banned = true` but an empty
`BanReason`, violating the claimed invariant. -/
theorem claim_C9_counterexample :
    ((applyOps NewDeviceBindings
        [StoreOp.set "k1" "dev" "ip" 1, StoreOp.ban "k1" "" 2]).Get "k1").2 = true ∧
    ¬ banInv ((applyOps NewDeviceBindings
        [StoreOp.set "k1" "dev" "ip" 1, StoreOp.ban "k1" "" 2]).Get "k1").1 := by
  decide

/-- Claim C9 (amended): in every state reached from a store satisfying the
ban-field invariant by a sequence of store operations in which every `Ban`
carries a non-empty reason and a non-zero timestamp (as the middleware's only
`Ban` call site does), every stored binding satisfies
`Banned = true ↔ (BanReason ≠ "" ∧ BannedAt ≠ 0)`. -/
theorem claim_C9_ban_invariant_amended (d : DeviceBindings) (ops : List StoreOp)
    (hInv : storeInv d) (hWF : ∀ op ∈ ops, opWF op) :
    storeInv (applyOps d ops) := by
  induction ops generalizing d with
  | nil => exact hInv
  | cons op rest ih =>
    have h1 : opWF op := hWF op (List.mem_cons_self op rest)
    have h2 : ∀ o ∈ rest, opWF o := fun o ho => hWF o (List.mem_cons_of_mem op ho)
    exact ih (applyOp d op) (storeInv_applyOp d op h1 hInv) h2

/-- Witness for claim C9 (amended): a register-then-ban sequence with a
non-empty reason preserves the invariant from the fresh store. -/
theorem claim_C9_witness :
    storeInv NewDeviceBindings ∧
    (∀ op ∈ [StoreOp.set "k1" "dev" "ip" 1, StoreOp.ban "k1" "banned by admin" 2],
      opWF op) ∧
    storeInv (applyOps NewDeviceBindings
      [StoreOp.set "k1" "dev" "ip" 1, StoreOp.ban "k1" "banned by admin" 2]) := by
  have hInv : storeInv NewDeviceBindings := by
    intro k h
    simp [NewDeviceBindings, DeviceBindings.Get, lookupKey] at h
  have hWF : ∀ op ∈ [StoreOp.set "k1" "dev" "ip" 1,
      StoreOp.ban "k1" "banned by admin" 2], opWF op := by decide
  exact ⟨hInv, hWF, claim_C9_ban_invariant_amended NewDeviceBindings _ hInv hWF⟩

/-- Claim C10: every store operation is total on a `DeviceBindings` whose
underlying map is nil: `Get` returns the zero binding and `false`, `Delete`
returns `false`, `UpdateLastSeen`, `Ban` and `Unban` leave the state
unchanged, and `Set` allocates the map and stores the binding. -/
theorem claim_C10_nil_map_total (k ip r dev t : String) (n : Int) :
    (DeviceBindings.Get ⟨none⟩ k) = (zeroBinding, false) ∧
    (DeviceBindings.Delete ⟨none⟩ k) = (⟨none⟩, false) ∧
    (DeviceBindings.UpdateLastSeen ⟨none⟩ k ip n) = ⟨none⟩ ∧
    (DeviceBindings.Ban ⟨none⟩ k r n) = ⟨none⟩ ∧
    (DeviceBindings.Unban ⟨none⟩ k) = ⟨none⟩ ∧
    (DeviceBindings.Set ⟨none⟩ k dev t n).Bindings ≠ none ∧
    ((DeviceBindings.Set ⟨none⟩ k dev t n).Get k) =
      ({ DeviceID := dev, Type_ := t, FirstSeen := n, LastSeen := n,
         LastIP := dev, Banned := false, BanReason := "", BannedAt := 0 }, true) :=
  ⟨rfl, rfl, rfl, rfl, rfl,
    by simp [DeviceBindings.Set],
    Get_Set_self ⟨none⟩ k dev t n⟩

end CCProxy.Device
